import Mathlib

/-!
Verification of the Auralynx repository (AssemblyAI transcription client).

Shallow embedding of the two source files:
  - src/auralynx/auralynx_parse.py    (JSON parsing tool / LRC export)
  - src/auralynx/auralynx_core_api.py (upload / transcribe / poll pipeline)

Python floats are modelled as exact rationals; JSON values that may be
null, a number or something else (e.g. a string) are modelled by `JVal`.
Process exits are modelled as returned numeric exit codes; writes to
stdout are modelled as lists of printed strings (one entry per `print`).
-/

namespace Auralynx

/-- A JSON field value as seen by `w.get('start')` / `w.get('end')` in
`auralynx_parse.py`: `null` covers both JSON null and an absent key
(Python's `dict.get` returns `None` for both); `num` is a numeric value
(modelled exactly as a rational); `str` is a non-numeric value, for which
Python's `x / 1000` raises `TypeError`. -/
inductive JVal where
  | null
  | num (q : ℚ)
  | str (s : String)
deriving DecidableEq, Repr

/-- A word entry of the transcript's `words` array.  `text` is `none`
when the `'text'` key is absent (Python `w.get('text', d)` then yields
the default `d`). -/
structure Word where
  start : JVal
  «end» : JVal
  text : Option String
deriving DecidableEq, Repr

/-- Round a rational to the nearest integer, ties to even — the rounding
used by CPython's fixed-point float formatting (`f"{x:.2f}"`). -/
def roundHalfEven (q : ℚ) : ℤ :=
  if q - ⌊q⌋ < 1 / 2 then ⌊q⌋
  else if (1 : ℚ) / 2 < q - ⌊q⌋ then ⌊q⌋ + 1
  else if ⌊q⌋ % 2 = 0 then ⌊q⌋ else ⌊q⌋ + 1

/-- Zero-pad an integer to at least two digits: Python `f"{n:02d}"`
(for the non-negative values this development evaluates it on). -/
def padZero2 (n : ℤ) : String :=
  if 0 ≤ n ∧ n < 10 then "0" ++ toString n else toString n

/-- Python `f"{q:.2f}"`: fixed two decimal places, rounding half to even
on the magnitude (half-even rounding is symmetric, so this agrees with
rounding the signed value). -/
def fmtF2 (q : ℚ) : String :=
  (if q < 0 then "-" else "")
    ++ toString (roundHalfEven (|q| * 100) / 100)
    ++ "." ++ padZero2 (roundHalfEven (|q| * 100) % 100)

/-- Python `f"{q:05.2f}"`: two decimals, zero-padded to total width 5,
i.e. the integer part is zero-padded to two digits (for the non-negative
seconds values `format_seconds_to_lrc_ts` feeds it). -/
def fmt05F2 (q : ℚ) : String :=
  padZero2 (roundHalfEven (|q| * 100) / 100)
    ++ "." ++ padZero2 (roundHalfEven (|q| * 100) % 100)

/-- Right-align a string in width 6 with spaces: Python `f"{x:6.2f}"`
applied to the already formatted number. -/
def padLeft6 (s : String) : String :=
  String.mk (List.replicate (6 - s.length) ' ') ++ s

/-- `format_seconds_to_lrc_ts` from auralynx_parse.py:
`minutes = int(sec // 60); seconds = sec - minutes * 60;`
`f"{minutes:02d}:{seconds:05.2f}"`. -/
def format_seconds_to_lrc_ts (sec : ℚ) : String :=
  padZero2 ⌊sec / 60⌋ ++ ":" ++ fmt05F2 (sec - ⌊sec / 60⌋ * 60)

/-- The LRC line produced for one word by the loop of `export_lrc`
(`none` when the word is skipped): skip when `start` is null or the
stripped text is empty; skip with a warning (see `lrcWarn`) when
`start / 1000.0` raises `TypeError`; otherwise emit `[ts]text`. -/
def lrcLine (w : Word) : Option String :=
  if w.start = JVal.null ∨ (w.text.getD "").trim = "" then none
  else
    match w.start with
    | JVal.num q =>
        some ("[" ++ format_seconds_to_lrc_ts (q / 1000) ++ "]" ++ (w.text.getD "").trim)
    | _ => none

/-- The warning printed for one word by the loop of `export_lrc`
(only in the `TypeError` branch of `start_ms / 1000.0`, i.e. when
`start` is present, non-null and non-numeric). -/
def lrcWarn (w : Word) : Option String :=
  if w.start = JVal.null ∨ (w.text.getD "").trim = "" then none
  else
    match w.start with
    | JVal.num _ => none
    | _ => some ("WARNING: Invalid timestamp for word: " ++ (w.text.getD "").trim)

/-- The lines `export_lrc` writes to the output file, in input order. -/
def export_lrc_lines (words : List Word) : List String :=
  words.filterMap lrcLine

/-- What `export_lrc` prints to stdout (per-word warnings in loop
order, then the success line; write errors are not modelled — the file
write is assumed to succeed). -/
def export_lrc_stdout (words : List Word) (outpath : String) : List String :=
  words.filterMap lrcWarn ++ ["LRC exported to: " ++ outpath]

/-- One line of the always-printed WORD-LEVEL TIMESTAMPS echo of
`auralynx_parse`: a missing-timestamp warning when `start` or `end` is
null, an invalid-timestamp warning when the division raises `TypeError`,
otherwise the `start - end (duration) : text` display line. -/
def ts_echo_word (w : Word) : String :=
  if w.start = JVal.null ∨ w.«end» = JVal.null then
    "WARNING: Missing timestamp for word: " ++ w.text.getD "unknown"
  else
    match w.start, w.«end» with
    | JVal.num s, JVal.num e =>
        padLeft6 (fmtF2 (s / 1000)) ++ "s - " ++ padLeft6 (fmtF2 (e / 1000))
          ++ "s (" ++ fmtF2 (e / 1000 - s / 1000) ++ "s) : " ++ w.text.getD ""
    | _, _ => "WARNING: Invalid timestamp for word: " ++ w.text.getD "unknown"

/-- One entry of the default-mode WORD_DATA echo (`none` when the word
is silently skipped: null or non-numeric timestamps). -/
def word_data_line (w : Word) : Option String :=
  if w.start = JVal.null ∨ w.«end» = JVal.null then none
  else
    match w.start, w.«end» with
    | JVal.num s, JVal.num e =>
        some ("    \x7b\x27word\x27: \x27"
          ++ (w.text.getD "").replace "\x27" "\x5c\x27"
          ++ "\x27, \x27start\x27: " ++ fmtF2 (s / 1000)
          ++ ", \x27end\x27: " ++ fmtF2 (e / 1000)
          ++ ", \x27duration\x27: " ++ fmtF2 (e / 1000 - s / 1000) ++ "\x7d,")
    | _, _ => none

/-- The words `export_lrc` emits a line for: `start` is a (non-null)
number and the stripped text is non-empty. -/
def isLrcGood (w : Word) : Bool :=
  (match w.start with
    | JVal.num _ => true
    | _ => false) && ((w.text.getD "").trim != "")

/-- The numeric value of a word's `start` field (0 when not numeric;
only meaningful on words satisfying `isLrcGood`). -/
def lrcStartNum (w : Word) : ℚ :=
  match w.start with
  | JVal.num q => q
  | _ => 0

/-- `"=" * 60`. -/
def eqs60 : String := String.mk (List.replicate 60 '=')

/-- Result of one `auralynx_parse` invocation: the stdout lines, the
lines written to the LRC file (`none` when no LRC file is written), and
the process exit code. -/
structure ParseOut where
  stdout : List String
  lrcFile : Option (List String)
  exitCode : ℕ
deriving DecidableEq, Repr

/-- `auralynx_parse` from auralynx_parse.py, after `load_json`
succeeded and the `words` field was found to be a list (modelled by the
typed argument); `lrc_out` is the already-resolved LRC output path.
Empty `words` exits 5; otherwise the timestamp echo is always printed;
with `--lrc` the LRC file is exported and the word-data echo is
suppressed; otherwise the WORD_DATA echo is printed and no LRC file is
written. -/
def auralynx_parse (words : List Word) (export_lrc_flag : Bool) (lrc_out : String) :
    ParseOut :=
  if words.isEmpty then
    ⟨["ERROR: No words found in JSON."], none, 5⟩
  else
    let tsEcho := [eqs60, "WORD-LEVEL TIMESTAMPS", eqs60] ++ words.map ts_echo_word
    if export_lrc_flag then
      ⟨tsEcho ++ export_lrc_stdout words lrc_out ++ ["\n[SUCCESS] LRC export complete."],
        some (export_lrc_lines words), 0⟩
    else
      ⟨tsEcho ++ ["\n" ++ eqs60, "WORD_DATA = ["]
          ++ words.filterMap word_data_line ++ ["]", "\n[SUCCESS] Parse complete."],
        none, 0⟩

/-! ## Core API (auralynx_core_api.py) -/

/-- The transcript JSON document returned by the status endpoint.
Optional fields model `result.get(k)` returning `None` when absent. -/
structure TranscriptDoc where
  status : Option String
  text : Option String
  words : List Word
  id : Option String
  error : Option String
deriving DecidableEq, Repr

/-- Outcome of one HTTP exchange as the code observes it: the request
raised (`requests.RequestException`), the response had a non-success
status, the body was not JSON, or a parsed payload came back. -/
inductive ApiResp (α : Type) where
  | transportFail
  | badStatus
  | badJson
  | ok (val : α)
deriving DecidableEq

/-- How opening/reading the local audio file goes in `upload_file`. -/
inductive FileAccess where
  | ok
  | notFound
  | permDenied
  | ioError
deriving DecidableEq, Repr

/-- The process environment of one transcription-tool invocation: the
credential, the audio file's accessibility, and the responses of the
three endpoints (`pollResp i` is the response to the i-th poll,
`pollReqTime i` the wall-clock seconds that request takes). -/
structure ApiEnv where
  apiKey : Option String
  fileAccess : FileAccess
  uploadResp : ApiResp (Option String)
  transcriptResp : ApiResp (Option String)
  pollResp : ℕ → ApiResp TranscriptDoc
  pollReqTime : ℕ → ℚ
  outputWriteOk : Bool

/-- A network request issued by the tool, in order of issue. -/
inductive HttpEv where
  | postUpload
  | postTranscript
  | getPoll (i : ℕ)
deriving DecidableEq, Repr

/-- `get_api_key`: exit 2 when `AAI_API_KEY` is unset or empty
(Python `if not key`). -/
def get_api_key (env : ApiEnv) : Except ℕ String :=
  match env.apiKey with
  | none => .error 2
  | some key => if key = "" then .error 2 else .ok key

/-- `upload_file`: file errors exit 3/15/16 before the request is
issued; after issuing the upload POST, transport failure exits 4,
non-(200,201) status exits 5, non-JSON body exits 17, a missing or
falsy `upload_url` exits 6; otherwise the upload URL is returned.
The first component lists the HTTP requests issued. -/
def upload_file (env : ApiEnv) : List HttpEv × Except ℕ String :=
  match env.fileAccess with
  | .notFound => ([], .error 3)
  | .permDenied => ([], .error 15)
  | .ioError => ([], .error 16)
  | .ok =>
    match env.uploadResp with
    | .transportFail => ([.postUpload], .error 4)
    | .badStatus => ([.postUpload], .error 5)
    | .badJson => ([.postUpload], .error 17)
    | .ok none => ([.postUpload], .error 6)
    | .ok (some upload_url) =>
        if upload_url = "" then ([.postUpload], .error 6)
        else ([.postUpload], .ok upload_url)

/-- Python's `s.startswith(pre)`. -/
def startswith (s pre : String) : Bool :=
  pre.data.isPrefixOf s.data

/-- `request_transcript`: the `audio_url` must be a string starting
with "https://" (in this embedding it is a string by type), checked
before any request — failure exits 21 with no HTTP event.  After the
POST: transport failure 7, non-(200,201) status 8, non-JSON body 18,
missing or falsy `id` 9; otherwise the transcript id is returned. -/
def request_transcript (audio_url : String) (env : ApiEnv) :
    List HttpEv × Except ℕ String :=
  if startswith audio_url "https://" = false then ([], .error 21)
  else
    match env.transcriptResp with
    | .transportFail => ([.postTranscript], .error 7)
    | .badStatus => ([.postTranscript], .error 8)
    | .badJson => ([.postTranscript], .error 18)
    | .ok none => ([.postTranscript], .error 9)
    | .ok (some transcript_id) =>
        if transcript_id = "" then ([.postTranscript], .error 9)
        else ([.postTranscript], .ok transcript_id)

/-- Result of `poll_transcript`: the completed document, a process
exit (10/11/19 fetch failures, 12 service error, 13 timeout), or fuel
exhaustion of the embedding (the real loop is unbounded). -/
inductive PollOutcome where
  | ok (doc : TranscriptDoc)
  | exit (code : ℕ)
  | fuelOut
deriving DecidableEq

/-- `poll_transcript`, with `start_time = 0`: state is the poll index
`i` and the `clock` at which the i-th GET is issued.  Each iteration
issues a GET; on a successful fetch the status is examined first
(`completed` returns the document, `error` exits 12), and only then is
`elapsed = clock + pollReqTime i` compared against the timeout
(strictly); otherwise the loop sleeps `poll_interval` and retries. -/
def poll_transcript (env : ApiEnv) (timeout poll_interval : ℚ) :
    ℕ → ℕ → ℚ → List HttpEv × PollOutcome
  | 0, _, _ => ([], .fuelOut)
  | fuel + 1, i, clock =>
    match env.pollResp i with
    | .transportFail => ([.getPoll i], .exit 10)
    | .badStatus => ([.getPoll i], .exit 11)
    | .badJson => ([.getPoll i], .exit 19)
    | .ok result =>
      if result.status.getD "unknown" = "completed" then ([.getPoll i], .ok result)
      else if result.status.getD "unknown" = "error" then ([.getPoll i], .exit 12)
      else if timeout < clock + env.pollReqTime i then ([.getPoll i], .exit 13)
      else
        let r := poll_transcript env timeout poll_interval fuel (i + 1)
          (clock + env.pollReqTime i + poll_interval)
        (.getPoll i :: r.1, r.2)

/-- `parse_words`: returns `transcript_data.get("words", [])` unchanged
(it only prints a warning when the list is empty). -/
def parse_words (transcript_data : TranscriptDoc) : List Word :=
  transcript_data.words

/-- The JSON object `save_output` writes:
`{source_file, text, words, meta: {status, id}}`. -/
structure OutputArtifact where
  source_file : String
  text : String
  words : List Word
  meta_status : Option String
  meta_id : Option String
deriving DecidableEq, Repr

/-- `save_output`: builds the output object and writes it; any write
failure exits 14. -/
def save_output (audio_file : String) (transcript_result : TranscriptDoc)
    (words : List Word) (env : ApiEnv) : Except ℕ OutputArtifact :=
  if env.outputWriteOk then
    .ok ⟨audio_file, transcript_result.text.getD "", words,
      transcript_result.status, transcript_result.id⟩
  else .error 14

/-- The command-line arguments of the transcription tool that the
model depends on. -/
structure Args where
  audio_file : String
  timeout : ℚ
  model : String

/-- `allowed_models` from `main`. -/
def allowed_models : List String := ["slam-1", "universal"]

/-- `main` of auralynx_core_api.py: model validation (exit 20) comes
before the credential lookup and all network steps; then
upload → request → poll (interval 3) → save; a `.error c` is the exit
code `sys.exit(c)`, `.ok` is the success path (which exits 0).  The
first component is the list of HTTP requests issued; `none` means the
poll fuel ran out (the modelled loop was cut short). -/
def main_run (env : ApiEnv) (args : Args) (fuel : ℕ) :
    Option (List HttpEv × Except ℕ OutputArtifact) :=
  if args.model ∉ allowed_models then some ([], .error 20)
  else
    match get_api_key env with
    | .error c => some ([], .error c)
    | .ok _api_key =>
      match upload_file env with
      | (ev1, .error c) => some (ev1, .error c)
      | (ev1, .ok upload_url) =>
        match request_transcript upload_url env with
        | (ev2, .error c) => some (ev1 ++ ev2, .error c)
        | (ev2, .ok _transcript_id) =>
          match poll_transcript env args.timeout 3 fuel 0 0 with
          | (_, .fuelOut) => none
          | (ev3, .exit c) => some (ev1 ++ ev2 ++ ev3, .error c)
          | (ev3, .ok result) =>
            match save_output args.audio_file result (parse_words result) env with
            | .error c => some (ev1 ++ ev2 ++ ev3, .error c)
            | .ok art => some (ev1 ++ ev2 ++ ev3, .ok art)

/-! ## Exit-code taxonomy

The failure categories named by the spec, with the exit codes the two
source files actually use for them (each code cited from its
`sys.exit` call). -/

/-- The spec's unified failure taxonomy across both tools. -/
inductive FailureCategory where
  | missingCredential      -- core: get_api_key
  | fileNotFound           -- core: upload_file (3); parse: load_json (2)
  | permissionDenied       -- core: upload_file (15); parse: export_lrc (6)
  | ioError                -- core: upload_file (16); parse: export_lrc (4)
  | transportUpload        -- core: upload_file (4)
  | transportTranscript    -- core: request_transcript (7)
  | transportPoll          -- core: poll_transcript (10)
  | httpStatusUpload       -- core: upload_file (5)
  | httpStatusTranscript   -- core: request_transcript (8)
  | httpStatusPoll         -- core: poll_transcript (11)
  | badJsonUpload          -- core: upload_file (17)
  | badJsonTranscript      -- core: request_transcript (18)
  | badJsonPoll            -- core: poll_transcript (19)
  | badJsonParseInput      -- parse: load_json (3)
  | missingFieldUpload     -- core: upload_file (6)
  | missingFieldTranscript -- core: request_transcript (9)
  | serviceError           -- core: poll_transcript (12)
  | timeout                -- core: poll_transcript (13)
  | invalidModel           -- core: main (20)
  | invalidInputJson       -- parse: auralynx_parse (5, twice)
  | outputWriteFailure     -- core: save_output (14)
deriving DecidableEq

/-- The exit codes each category maps to in the source (a category
used by both tools maps to one code per tool). -/
def categoryCodes : FailureCategory → List ℕ
  | .missingCredential => [2]
  | .fileNotFound => [3, 2]
  | .permissionDenied => [15, 6]
  | .ioError => [16, 4]
  | .transportUpload => [4]
  | .transportTranscript => [7]
  | .transportPoll => [10]
  | .httpStatusUpload => [5]
  | .httpStatusTranscript => [8]
  | .httpStatusPoll => [11]
  | .badJsonUpload => [17]
  | .badJsonTranscript => [18]
  | .badJsonPoll => [19]
  | .badJsonParseInput => [3]
  | .missingFieldUpload => [6]
  | .missingFieldTranscript => [9]
  | .serviceError => [12]
  | .timeout => [13]
  | .invalidModel => [20]
  | .invalidInputJson => [5]
  | .outputWriteFailure => [14]

/-- Failure categories of the transcription tool (auralynx_core_api.py)
alone. -/
inductive CoreFailure where
  | missingCredential
  | fileNotFound
  | permissionDenied
  | ioError
  | transportUpload
  | transportTranscript
  | transportPoll
  | httpStatusUpload
  | httpStatusTranscript
  | httpStatusPoll
  | badJsonUpload
  | badJsonTranscript
  | badJsonPoll
  | missingFieldUpload
  | missingFieldTranscript
  | invalidUploadUrl
  | serviceError
  | timeout
  | invalidModel
  | outputWriteFailure
deriving DecidableEq, Fintype

/-- Exit code of each transcription-tool failure category
(each from its `sys.exit` call in auralynx_core_api.py). -/
def coreExitCode : CoreFailure → ℕ
  | .missingCredential => 2
  | .fileNotFound => 3
  | .permissionDenied => 15
  | .ioError => 16
  | .transportUpload => 4
  | .transportTranscript => 7
  | .transportPoll => 10
  | .httpStatusUpload => 5
  | .httpStatusTranscript => 8
  | .httpStatusPoll => 11
  | .badJsonUpload => 17
  | .badJsonTranscript => 18
  | .badJsonPoll => 19
  | .missingFieldUpload => 6
  | .missingFieldTranscript => 9
  | .invalidUploadUrl => 21
  | .serviceError => 12
  | .timeout => 13
  | .invalidModel => 20
  | .outputWriteFailure => 14

/-- Failure categories of the parsing tool (auralynx_parse.py) alone. -/
inductive ParseFailure where
  | fileNotFound
  | malformedJson
  | invalidInputJson
  | permissionDenied
  | ioError
deriving DecidableEq, Fintype

/-- Exit code of each parsing-tool failure category
(each from its `sys.exit` call in auralynx_parse.py). -/
def parseExitCode : ParseFailure → ℕ
  | .fileNotFound => 2
  | .malformedJson => 3
  | .invalidInputJson => 5
  | .permissionDenied => 6
  | .ioError => 4

/-! ## Concrete inputs used by witnesses -/

/-- A word with valid timestamps (scenario A of the spec). -/
def wordHello : Word := ⟨.num 0, .num 400, some "hello"⟩

/-- A word whose `start` is null. -/
def wordNullStart : Word := ⟨.null, .num 700, some "sky"⟩

/-- The completed transcript document of scenario A. -/
def docCompleted : TranscriptDoc :=
  ⟨some "completed", some "hello", [wordHello], some "abc", none⟩

/-- An environment whose status endpoint always answers
`{"status": "processing"}` instantly (scenario B). -/
def envProcessing : ApiEnv where
  apiKey := some "k"
  fileAccess := .ok
  uploadResp := .ok (some "https://x/y")
  transcriptResp := .ok (some "abc")
  pollResp := fun _ => .ok ⟨some "processing", none, [], none, none⟩
  pollReqTime := fun _ => 0
  outputWriteOk := true

/-- The happy-path environment of scenario A. -/
def envCompleted : ApiEnv where
  apiKey := some "k"
  fileAccess := .ok
  uploadResp := .ok (some "https://x/y")
  transcriptResp := .ok (some "abc")
  pollResp := fun _ => .ok docCompleted
  pollReqTime := fun _ => 0
  outputWriteOk := true

/-- The artifact `main_run envCompleted` produces. -/
def artCompleted : OutputArtifact :=
  ⟨"a.mp3", "hello", [wordHello], some "completed", some "abc"⟩

/-- Arguments of the happy-path invocation. -/
def argsCompleted : Args := ⟨"a.mp3", 300, "universal"⟩

end Auralynx

namespace Auralynx

/-! ## Helper lemmas -/

/-- If `n ≤ q < n + 1/2`, half-even rounding gives `n`. -/
theorem roundHalfEven_eq_of (q : ℚ) (n : ℤ) (h1 : (n : ℚ) ≤ q)
    (h2 : q < (n : ℚ) + 1 / 2) : roundHalfEven q = n := by
  have hf : ⌊q⌋ = n := by
    rw [Int.floor_eq_iff]
    exact ⟨h1, by linarith⟩
  simp only [roundHalfEven, hf]
  rw [if_pos (by linarith)]

/-- Evaluation rule for `fmt05F2` on non-negative values. -/
theorem fmt05F2_eval (q : ℚ) (n : ℤ) (h0 : 0 ≤ q) (h1 : (n : ℚ) ≤ q * 100)
    (h2 : q * 100 < (n : ℚ) + 1 / 2) :
    fmt05F2 q = padZero2 (n / 100) ++ "." ++ padZero2 (n % 100) := by
  rw [fmt05F2, abs_of_nonneg h0, roundHalfEven_eq_of _ n h1 h2]

/-- `poll_transcript` with no fuel. -/
theorem poll_transcript_zero (env : ApiEnv) (t iv : ℚ) (i : ℕ) (clock : ℚ) :
    poll_transcript env t iv 0 i clock = ([], .fuelOut) := rfl

/-- One unfolding step of `poll_transcript`. -/
theorem poll_transcript_succ (env : ApiEnv) (t iv : ℚ) (fuel i : ℕ) (clock : ℚ) :
    poll_transcript env t iv (fuel + 1) i clock =
      match env.pollResp i with
      | .transportFail => ([.getPoll i], .exit 10)
      | .badStatus => ([.getPoll i], .exit 11)
      | .badJson => ([.getPoll i], .exit 19)
      | .ok result =>
        if result.status.getD "unknown" = "completed" then ([.getPoll i], .ok result)
        else if result.status.getD "unknown" = "error" then ([.getPoll i], .exit 12)
        else if t < clock + env.pollReqTime i then ([.getPoll i], .exit 13)
        else
          (HttpEv.getPoll i ::
              (poll_transcript env t iv fuel (i + 1) (clock + env.pollReqTime i + iv)).1,
            (poll_transcript env t iv fuel (i + 1) (clock + env.pollReqTime i + iv)).2) := rfl

/-- The polling loop hands back a document only if its status is
`"completed"`. -/
theorem poll_ok_status (env : ApiEnv) (t iv : ℚ) :
    ∀ (fuel i : ℕ) (clock : ℚ) (doc : TranscriptDoc),
      (poll_transcript env t iv fuel i clock).2 = PollOutcome.ok doc →
      doc.status = some "completed" := by
  intro fuel
  induction fuel with
  | zero =>
    intro i clock doc h
    rw [poll_transcript_zero] at h
    exact absurd h (by simp)
  | succ n ih =>
    intro i clock doc h
    rw [poll_transcript_succ] at h
    cases hr : env.pollResp i with
    | transportFail => simp [hr] at h
    | badStatus => simp [hr] at h
    | badJson => simp [hr] at h
    | ok result =>
      simp only [hr] at h
      by_cases h1 : result.status.getD "unknown" = "completed"
      · rw [if_pos h1] at h
        have hdoc : result = doc := by simpa using h
        subst hdoc
        cases hst : result.status with
        | none => simp_all
        | some s => simp_all
      · rw [if_neg h1] at h
        by_cases h2 : result.status.getD "unknown" = "error"
        · rw [if_pos h2] at h
          simp at h
        · rw [if_neg h2] at h
          by_cases h3 : t < clock + env.pollReqTime i
          · rw [if_pos h3] at h
            simp at h
          · rw [if_neg h3] at h
            exact ih (i + 1) (clock + env.pollReqTime i + iv) doc (by simpa using h)

/-- `padLeft6` always yields at least 6 characters. -/
theorem length_padLeft6 (s : String) : 6 ≤ (padLeft6 s).length := by
  have h : (String.mk (List.replicate (6 - s.length) ' ')).length = 6 - s.length := by
    show (List.replicate (6 - s.length) ' ').length = 6 - s.length
    simp
  simp [padLeft6, String.length_append, h]
  omega

/-- Every line of the timestamp echo is at least 14 characters long. -/
theorem length_ts_echo_word (w : Word) : 14 ≤ (ts_echo_word w).length := by
  rw [ts_echo_word]
  split_ifs with h1
  · have : ("WARNING: Missing timestamp for word: ").length = 37 := rfl
    simp [String.length_append]
    omega
  · cases hs : w.start with
    | null => exact absurd (Or.inl hs) h1
    | num q =>
      cases he : w.«end» with
      | null => exact absurd (Or.inr he) h1
      | num e =>
        simp only [String.length_append]
        have l1 := length_padLeft6 (fmtF2 (q / 1000))
        have l2 := length_padLeft6 (fmtF2 (e / 1000))
        have : ("s - ").length = 4 := rfl
        omega
      | str s2 =>
        have : ("WARNING: Invalid timestamp for word: ").length = 37 := rfl
        simp [String.length_append]
        omega
    | str s1 =>
      have : ("WARNING: Invalid timestamp for word: ").length = 37 := rfl
      simp [String.length_append]
      omega

/-- No timestamp-echo line is the WORD_DATA header. -/
theorem ts_echo_word_ne_word_data (w : Word) : ts_echo_word w ≠ "WORD_DATA = [" := by
  intro h
  have hl := congrArg String.length h
  have h13 : ("WORD_DATA = [").length = 13 := rfl
  have h14 := length_ts_echo_word w
  omega

/-- No LRC-export warning line is the WORD_DATA header. -/
theorem lrcWarn_ne_word_data (w : Word) (s : String) (h : lrcWarn w = some s) :
    s ≠ "WORD_DATA = [" := by
  intro hbad
  subst hbad
  rw [lrcWarn] at h
  split_ifs at h with h1
  cases hs : w.start with
  | null => exact absurd (Or.inl hs) h1
  | num q => simp [hs] at h
  | str s2 =>
    simp only [hs] at h
    simp only [Option.some.injEq] at h
    have hl := congrArg String.length h
    have h37 : ("WARNING: Invalid timestamp for word: ").length = 37 := rfl
    have h13 : ("WORD_DATA = [").length = 13 := rfl
    rw [String.length_append] at hl
    omega

/-- Shape of the stdout of an LRC-mode invocation on non-empty input. -/
theorem parse_stdout_lrc (words : List Word) (o : String) (h : words.isEmpty = false) :
    (auralynx_parse words true o).stdout =
      [eqs60, "WORD-LEVEL TIMESTAMPS", eqs60] ++ words.map ts_echo_word
        ++ (words.filterMap lrcWarn ++ ["LRC exported to: " ++ o])
        ++ ["\n[SUCCESS] LRC export complete."] := by
  simp [auralynx_parse, export_lrc_stdout, h]

end Auralynx

namespace Auralynx

/-! ## Claims -/

/-- C1: The LRC timestamp formatter maps a time in seconds to a string
with two-digit zero-padded minutes and zero-padded two-decimal seconds,
with minutes unbounded: 125.5 ↦ "02:05.50", 0 ↦ "00:00.00",
3661.004 ↦ "61:01.00", and for every non-negative input the minutes
field is the floor of input/60, without clamping or wrapping at 60. -/
theorem C1_lrc_timestamp_format :
    format_seconds_to_lrc_ts (125.5 : ℚ) = "02:05.50" ∧
    format_seconds_to_lrc_ts 0 = "00:00.00" ∧
    format_seconds_to_lrc_ts (3661.004 : ℚ) = "61:01.00" ∧
    ∀ sec : ℚ, 0 ≤ sec →
      ∃ rest, format_seconds_to_lrc_ts sec = padZero2 ⌊sec / 60⌋ ++ ":" ++ rest := by
  refine ⟨?_, ?_, ?_, fun sec _ => ⟨_, rfl⟩⟩
  · simp only [format_seconds_to_lrc_ts]
    rw [show ⌊(125.5 : ℚ) / 60⌋ = 2 from by norm_num [Int.floor_eq_iff],
      show (125.5 : ℚ) - ((2 : ℤ) : ℚ) * 60 = 5.5 from by norm_num,
      fmt05F2_eval 5.5 550 (by norm_num) (by norm_num) (by norm_num)]
    decide
  · simp only [format_seconds_to_lrc_ts]
    rw [show ⌊(0 : ℚ) / 60⌋ = 0 from by norm_num,
      show (0 : ℚ) - ((0 : ℤ) : ℚ) * 60 = 0 from by norm_num,
      fmt05F2_eval 0 0 (by norm_num) (by norm_num) (by norm_num)]
    decide
  · simp only [format_seconds_to_lrc_ts]
    rw [show ⌊(3661.004 : ℚ) / 60⌋ = 61 from by norm_num [Int.floor_eq_iff],
      show (3661.004 : ℚ) - ((61 : ℤ) : ℚ) * 60 = 1.004 from by norm_num,
      fmt05F2_eval 1.004 100 (by norm_num) (by norm_num) (by norm_num)]
    decide

/-- Witness for C1 at the concrete input 3700 seconds. -/
theorem C1_lrc_timestamp_format_witness :
    ∃ rest, format_seconds_to_lrc_ts (3700 : ℚ) =
      padZero2 ⌊(3700 : ℚ) / 60⌋ ++ ":" ++ rest :=
  C1_lrc_timestamp_format.2.2.2 3700 (by decide)

/-- C2: For every sequence of successful status responses the polling
loop terminates: with positive interval and non-negative request times,
fuel `fuel + 1` suffices whenever `timeout < clock + fuel * interval`
(so the loop never runs forever); a `"completed"` response returns the
document, an `"error"` response exits 12, and with the status endpoint
always answering `"processing"`, `timeout = 5` and `interval = 3`, the
loop exits with the timeout code 13. -/
theorem C2_poll_terminates :
    (∀ (env : ApiEnv) (t iv : ℚ), 0 < iv → (∀ i, 0 ≤ env.pollReqTime i) →
      ∀ (fuel i : ℕ) (clock : ℚ), t < clock + fuel * iv →
        (poll_transcript env t iv (fuel + 1) i clock).2 ≠ PollOutcome.fuelOut) ∧
    (∀ (env : ApiEnv) (t iv : ℚ) (fuel i : ℕ) (clock : ℚ) (doc : TranscriptDoc),
      env.pollResp i = .ok doc → doc.status.getD "unknown" = "completed" →
      (poll_transcript env t iv (fuel + 1) i clock).2 = PollOutcome.ok doc) ∧
    (∀ (env : ApiEnv) (t iv : ℚ) (fuel i : ℕ) (clock : ℚ) (doc : TranscriptDoc),
      env.pollResp i = .ok doc → doc.status.getD "unknown" = "error" →
      (poll_transcript env t iv (fuel + 1) i clock).2 = PollOutcome.exit 12) ∧
    (poll_transcript envProcessing 5 3 3 0 0).2 = PollOutcome.exit 13 := by
  refine ⟨?_, ?_, ?_, ?_⟩
  · intro env t iv hiv hreq fuel
    induction fuel with
    | zero =>
      intro i clock h
      rw [poll_transcript_succ]
      cases hr : env.pollResp i with
      | transportFail => simp
      | badStatus => simp
      | badJson => simp
      | ok result =>
        by_cases hc : result.status.getD "unknown" = "completed"
        · simp [hc]
        · by_cases he : result.status.getD "unknown" = "error"
          · simp [hc, he]
          · have ht : t < clock + env.pollReqTime i := by
              simp only [Nat.cast_zero, zero_mul, add_zero] at h
              have := hreq i
              linarith
            simp [hc, he, ht]
    | succ n ih =>
      intro i clock h
      rw [poll_transcript_succ]
      cases hr : env.pollResp i with
      | transportFail => simp
      | badStatus => simp
      | badJson => simp
      | ok result =>
        by_cases hc : result.status.getD "unknown" = "completed"
        · simp [hc]
        · by_cases he : result.status.getD "unknown" = "error"
          · simp [hc, he]
          · by_cases ht : t < clock + env.pollReqTime i
            · simp [hc, he, ht]
            · simp only [if_neg hc, if_neg he, if_neg ht]
              apply ih (i + 1) (clock + env.pollReqTime i + iv)
              have := hreq i
              push_cast at h
              linarith
  · intro env t iv fuel i clock doc hr hs
    rw [poll_transcript_succ, hr]
    simp [hs]
  · intro env t iv fuel i clock doc hr hs
    rw [poll_transcript_succ, hr]
    simp [hs]
  · simp [envProcessing, poll_transcript_succ]
    norm_num

/-- Witness for C2 at the scenario-B environment. -/
theorem C2_poll_terminates_witness :
    (poll_transcript envProcessing 5 3 (2 + 1) 0 0).2 ≠ PollOutcome.fuelOut :=
  C2_poll_terminates.1 envProcessing 5 3 (by norm_num) (fun _ => le_refl 0) 2 0 0
    (by norm_num)

/-- C3 counterexample: the claim says LRC mode suppresses the
word-level-timestamps echo, but on a one-word input in LRC mode the
echo header is printed. -/
theorem C3_lrc_mode_counterexample :
    "WORD-LEVEL TIMESTAMPS" ∈
      (auralynx_parse [⟨JVal.num 0, JVal.num 500, some "hi"⟩] true "x.lrc").stdout := by
  decide

/-- C3 (amended): in LRC mode the word-data echo is suppressed (the
WORD_DATA header never appears on stdout) and the LRC file is written,
while default mode writes no LRC file — the two output modes are
mutually exclusive; but the word-level-timestamps echo is still
printed in LRC mode. -/
theorem C3_lrc_mode_output :
    ∀ (words : List Word) (lrc_out : String), words ≠ [] →
      "WORD_DATA = [" ∉ (auralynx_parse words true lrc_out).stdout ∧
      (auralynx_parse words true lrc_out).lrcFile = some (export_lrc_lines words) ∧
      (auralynx_parse words false lrc_out).lrcFile = none ∧
      "WORD-LEVEL TIMESTAMPS" ∈ (auralynx_parse words true lrc_out).stdout := by
  intro words o hne
  have hE : words.isEmpty = false := by
    simpa [List.isEmpty_iff] using hne
  refine ⟨?_, by simp [auralynx_parse, hE], by simp [auralynx_parse, hE], ?_⟩
  · intro hmem
    rw [parse_stdout_lrc words o hE] at hmem
    rcases List.mem_append.mp hmem with hA | h6
    · rcases List.mem_append.mp hA with hB | hC
      · rcases List.mem_append.mp hB with hD | hE2
        · simp only [List.mem_cons, List.not_mem_nil, or_false] at hD
          rcases hD with h | h | h
          · exact absurd h (by decide)
          · exact absurd h (by decide)
          · exact absurd h (by decide)
        · obtain ⟨w, _, hw⟩ := List.mem_map.mp hE2
          exact ts_echo_word_ne_word_data w hw
      · rcases List.mem_append.mp hC with hF | hG
        · obtain ⟨w, _, hw⟩ := List.mem_filterMap.mp hF
          exact lrcWarn_ne_word_data w _ hw rfl
        · have h5 := List.mem_singleton.mp hG
          have hl := congrArg String.length h5.symm
          have h17 : ("LRC exported to: ").length = 17 := rfl
          have h13 : ("WORD_DATA = [").length = 13 := rfl
          rw [String.length_append] at hl
          omega
    · exact absurd (List.mem_singleton.mp h6) (by decide)
  · rw [parse_stdout_lrc words o hE]
    simp

/-- Witness for the amended C3 on a one-word input. -/
theorem C3_lrc_mode_output_witness :
    "WORD_DATA = [" ∉ (auralynx_parse [wordHello] true "x.lrc").stdout ∧
    (auralynx_parse [wordHello] true "x.lrc").lrcFile =
      some (export_lrc_lines [wordHello]) ∧
    (auralynx_parse [wordHello] false "x.lrc").lrcFile = none ∧
    "WORD-LEVEL TIMESTAMPS" ∈ (auralynx_parse [wordHello] true "x.lrc").stdout :=
  C3_lrc_mode_output [wordHello] "x.lrc" (List.cons_ne_nil _ _)

/-- C4: in an LRC-mode invocation, a word whose start timestamp is
null contributes no LRC line, a warning naming it is printed (by the
always-on timestamp echo), and the run still completes the export and
exits 0 — no unhandled fault. -/
theorem C4_null_start_word :
    ∀ (words : List Word) (lrc_out : String) (w : Word), w ∈ words →
      w.start = JVal.null →
      lrcLine w = none ∧
      (auralynx_parse words true lrc_out).lrcFile = some (export_lrc_lines words) ∧
      ("WARNING: Missing timestamp for word: " ++ w.text.getD "unknown")
        ∈ (auralynx_parse words true lrc_out).stdout ∧
      (auralynx_parse words true lrc_out).exitCode = 0 := by
  intro words o w hw hnull
  have hE : words.isEmpty = false := by
    simpa [List.isEmpty_iff] using List.ne_nil_of_mem hw
  have hts : ts_echo_word w =
      "WARNING: Missing timestamp for word: " ++ w.text.getD "unknown" := by
    rw [ts_echo_word, if_pos (Or.inl hnull)]
  refine ⟨by simp [lrcLine, hnull], by simp [auralynx_parse, hE], ?_,
    by simp [auralynx_parse, hE]⟩
  rw [parse_stdout_lrc words o hE]
  simp only [List.mem_append]
  exact Or.inl (Or.inl (Or.inr (hts ▸ List.mem_map_of_mem ts_echo_word hw)))

/-- Witness for C4 on a concrete one-word input with null start. -/
theorem C4_null_start_word_witness :
    lrcLine wordNullStart = none ∧
    (auralynx_parse [wordNullStart] true "out.lrc").lrcFile =
      some (export_lrc_lines [wordNullStart]) ∧
    ("WARNING: Missing timestamp for word: " ++ wordNullStart.text.getD "unknown")
      ∈ (auralynx_parse [wordNullStart] true "out.lrc").stdout ∧
    (auralynx_parse [wordNullStart] true "out.lrc").exitCode = 0 :=
  C4_null_start_word [wordNullStart] "out.lrc" wordNullStart
    (List.mem_singleton.mpr rfl) rfl

/-- C5 counterexample: the spec's failure categories do not all map to
pairwise distinct exit codes — exit code 2 is both the missing-credential
code (transcription tool) and a file-not-found code (parse tool). -/
theorem C5_exit_codes_counterexample :
    ¬ ∀ c₁ c₂ : FailureCategory, c₁ ≠ c₂ →
        ∀ n, n ∈ categoryCodes c₁ → n ∉ categoryCodes c₂ :=
  fun h =>
    h FailureCategory.missingCredential FailureCategory.fileNotFound (by decide) 2
      (by decide) (by decide)

/-- C5 (amended): within each tool every failure category has an exit
code distinct from every other category of that tool, and a successful
run of the parse tool exits 0; but codes are reused across the two
tools. -/
theorem C5_exit_codes_per_tool :
    (∀ c₁ c₂ : CoreFailure, c₁ ≠ c₂ → coreExitCode c₁ ≠ coreExitCode c₂) ∧
    (∀ c₁ c₂ : ParseFailure, c₁ ≠ c₂ → parseExitCode c₁ ≠ parseExitCode c₂) ∧
    (∀ (words : List Word) (flag : Bool) (lrc_out : String), words ≠ [] →
      (auralynx_parse words flag lrc_out).exitCode = 0) := by
  refine ⟨by decide, by decide, ?_⟩
  intro words flag o hne
  have hE : words.isEmpty = false := by simpa [List.isEmpty_iff] using hne
  cases flag <;> simp [auralynx_parse, hE]

/-- Witness for the amended C5: two distinct core categories, and a
concrete successful parse run. -/
theorem C5_exit_codes_per_tool_witness :
    coreExitCode CoreFailure.timeout ≠ coreExitCode CoreFailure.serviceError ∧
    (auralynx_parse [wordHello] true "x.lrc").exitCode = 0 :=
  ⟨C5_exit_codes_per_tool.1 CoreFailure.timeout CoreFailure.serviceError (by decide),
    C5_exit_codes_per_tool.2.2 [wordHello] true "x.lrc" (List.cons_ne_nil _ _)⟩

end Auralynx

namespace Auralynx

/-- C6: an invalid `--model` value terminates with exit code 20 before
any network request: for every environment, zero HTTP events are
recorded. -/
theorem C6_invalid_model_before_network :
    ∀ (env : ApiEnv) (args : Args) (fuel : ℕ), args.model ∉ allowed_models →
      main_run env args fuel = some ([], Except.error 20) := by
  intro env args fuel h
  simp [main_run, h]

/-- Witness for C6 with `--model invalid-model` (scenario C). -/
theorem C6_invalid_model_before_network_witness :
    main_run envCompleted ⟨"a.mp3", 300, "invalid-model"⟩ 1 =
      some ([], Except.error 20) :=
  C6_invalid_model_before_network envCompleted ⟨"a.mp3", 300, "invalid-model"⟩ 1
    (by decide)

/-- C7: `request_transcript` rejects any upload URL that does not begin
with "https://" (in particular the empty string), exiting 21 with no
HTTP request issued, whatever the environment. -/
theorem C7_upload_url_validation :
    ∀ (audio_url : String) (env : ApiEnv), startswith audio_url "https://" = false →
      request_transcript audio_url env = ([], Except.error 21) := by
  intro u env h
  simp [request_transcript, h]

/-- Witness for C7 at a non-https URL. -/
theorem C7_upload_url_validation_witness :
    request_transcript "http://x/y" envCompleted = ([], Except.error 21) :=
  C7_upload_url_validation "http://x/y" envCompleted (by decide)

/-- C8: whenever the transcription tool succeeds, the artifact it wrote
is exactly `{source_file, text, words, meta: {status, id}}` built from
the polled document: `words` is the document's word array unchanged,
and `meta.status` is the document's status, which is `"completed"`. -/
theorem C8_output_artifact :
    ∀ (env : ApiEnv) (args : Args) (fuel : ℕ) (trace : List HttpEv)
      (art : OutputArtifact),
      main_run env args fuel = some (trace, Except.ok art) →
      ∃ doc : TranscriptDoc,
        (poll_transcript env args.timeout 3 fuel 0 0).2 = PollOutcome.ok doc ∧
        doc.status = some "completed" ∧
        art = ⟨args.audio_file, doc.text.getD "", doc.words, doc.status, doc.id⟩ ∧
        art.words = doc.words ∧ art.meta_status = some "completed" := by
  intro env args fuel trace art h
  unfold main_run at h
  by_cases hm : args.model ∉ allowed_models
  · rw [if_pos hm] at h
    simp at h
  · rw [if_neg hm] at h
    rcases hg : get_api_key env with c | key <;> rw [hg] at h
    · simp at h
    · rcases hu : upload_file env with ⟨ev1, r1⟩
      rw [hu] at h
      rcases r1 with c | url
      · simp at h
      · dsimp only at h
        rcases hq : request_transcript url env with ⟨ev2, r2⟩
        rw [hq] at h
        rcases r2 with c | tid
        · simp at h
        · dsimp only at h
          rcases hp : poll_transcript env args.timeout 3 fuel 0 0 with ⟨ev3, r3⟩
          rw [hp] at h
          rcases r3 with doc | c
          · dsimp only at h
            rcases hs : save_output args.audio_file doc (parse_words doc) env
                with c | art2 <;> rw [hs] at h
            · simp at h
            · simp only [Option.some.injEq, Prod.mk.injEq, Except.ok.injEq] at h
              have hart : art2 = art := h.2
              have hpoll2 : (poll_transcript env args.timeout 3 fuel 0 0).2 =
                  PollOutcome.ok doc := by rw [hp]
              have hstat : doc.status = some "completed" :=
                poll_ok_status env args.timeout 3 fuel 0 0 doc hpoll2
              have hshape : art2 = ⟨args.audio_file, doc.text.getD "", doc.words,
                  doc.status, doc.id⟩ := by
                rw [save_output] at hs
                split_ifs at hs
                simpa [parse_words] using hs.symm
              refine ⟨doc, rfl, hstat, ?_, ?_, ?_⟩
              · rw [← hart, hshape]
              · rw [← hart, hshape]
              · rw [← hart, hshape]
                simpa using hstat
          · simp at h
          · simp at h

/-- Witness for C8 on the happy-path environment of scenario A. -/
theorem C8_output_artifact_witness :
    ∃ doc : TranscriptDoc,
      (poll_transcript envCompleted (300 : ℚ) 3 1 0 0).2 = PollOutcome.ok doc ∧
      doc.status = some "completed" ∧
      artCompleted = ⟨"a.mp3", doc.text.getD "", doc.words, doc.status, doc.id⟩ ∧
      artCompleted.words = doc.words ∧ artCompleted.meta_status = some "completed" :=
  C8_output_artifact envCompleted argsCompleted 1
    [HttpEv.postUpload, HttpEv.postTranscript, HttpEv.getPoll 0] artCompleted
    (by
      have hsw : startswith "https://x/y" "https://" = true := by decide
      simp [main_run, get_api_key, upload_file, request_transcript, save_output,
        parse_words, envCompleted, docCompleted, artCompleted, allowed_models,
        argsCompleted, hsw, poll_transcript_succ])

/-- C9: the polling loop examines the fetched status before the
timeout deadline: a `"completed"`/`"error"` response takes its terminal
outcome even when the elapsed time already exceeds the timeout, and the
timeout exit 13 is taken exactly when the fetched status is
non-terminal and the elapsed time strictly exceeds the timeout. -/
theorem C9_status_before_timeout :
    (∀ (env : ApiEnv) (t iv : ℚ) (fuel i : ℕ) (clock : ℚ) (doc : TranscriptDoc),
      env.pollResp i = .ok doc → doc.status.getD "unknown" = "completed" →
      t < clock + env.pollReqTime i →
      (poll_transcript env t iv (fuel + 1) i clock).2 = PollOutcome.ok doc) ∧
    (∀ (env : ApiEnv) (t iv : ℚ) (fuel i : ℕ) (clock : ℚ) (doc : TranscriptDoc),
      env.pollResp i = .ok doc → doc.status.getD "unknown" = "error" →
      t < clock + env.pollReqTime i →
      (poll_transcript env t iv (fuel + 1) i clock).2 = PollOutcome.exit 12) ∧
    (∀ (env : ApiEnv) (t iv : ℚ) (fuel i : ℕ) (clock : ℚ) (doc : TranscriptDoc),
      env.pollResp i = .ok doc → doc.status.getD "unknown" ≠ "completed" →
      doc.status.getD "unknown" ≠ "error" → t < clock + env.pollReqTime i →
      (poll_transcript env t iv (fuel + 1) i clock).2 = PollOutcome.exit 13) := by
  refine ⟨?_, ?_, ?_⟩
  · intro env t iv fuel i clock doc hr hs _
    rw [poll_transcript_succ, hr]
    simp [hs]
  · intro env t iv fuel i clock doc hr hs _
    rw [poll_transcript_succ, hr]
    simp [hs]
  · intro env t iv fuel i clock doc hr hc he ht
    rw [poll_transcript_succ, hr]
    simp [hc, he, ht]

/-- Witness for C9: a poll at clock 10 with timeout 5 (deadline long
past) still exits 13 only because the status is non-terminal. -/
theorem C9_status_before_timeout_witness :
    (poll_transcript envProcessing 5 3 (0 + 1) 0 10).2 = PollOutcome.exit 13 :=
  C9_status_before_timeout.2.2 envProcessing 5 3 0 0 10
    ⟨some "processing", none, [], none, none⟩ rfl (by decide) (by decide)
    (by norm_num [envProcessing])

/-- C10: the LRC export emits exactly one line `[timestamp]text` per
word whose start is a non-null number and whose trimmed text is
non-empty, in input order, and no line for any other word; the line
count equals the count of such words. -/
theorem C10_export_lrc_lines :
    ∀ words : List Word,
      export_lrc_lines words =
        (words.filter isLrcGood).map
          (fun w => "[" ++ format_seconds_to_lrc_ts (lrcStartNum w / 1000) ++ "]"
            ++ (w.text.getD "").trim) ∧
      (export_lrc_lines words).length = (words.filter isLrcGood).length := by
  intro words
  have h : export_lrc_lines words =
      (words.filter isLrcGood).map
        (fun w => "[" ++ format_seconds_to_lrc_ts (lrcStartNum w / 1000) ++ "]"
          ++ (w.text.getD "").trim) := by
    induction words with
    | nil => simp [export_lrc_lines]
    | cons w ws ih =>
      simp only [export_lrc_lines, List.filterMap_cons, List.filter_cons] at ih ⊢
      cases hs : w.start with
      | null => simpa [lrcLine, isLrcGood, hs] using ih
      | num q =>
        by_cases htr : (w.text.getD "").trim = ""
        · simpa [lrcLine, isLrcGood, hs, htr] using ih
        · simpa [lrcLine, isLrcGood, lrcStartNum, hs, htr] using ih
      | str s2 =>
        by_cases htr : (w.text.getD "").trim = ""
        · simpa [lrcLine, isLrcGood, hs, htr] using ih
        · simpa [lrcLine, isLrcGood, hs, htr] using ih
  exact ⟨h, by rw [h, List.length_map]⟩

end Auralynx
